import Mathlib

/-!
# Verification of the maggie-bot flashloan arbitrage system

Shallow embedding of the off-chain decision engine (`src/bot/priceMonitor.js`,
`src/bot/opportunityDetector.js`, `src/bot/calldataEncoder.js`, `src/bot/config.js`)
and the on-chain executor (`src/contracts/FlashloanExecutor.sol`).

Modelling conventions:
* JavaScript `Number` arithmetic is modelled exactly over `ℚ` (float rounding is
  not modelled); JavaScript `BigInt` and Solidity `uint256` values are modelled
  as `ℕ`.  Division of `BigInt`/`uint` values is `Nat` floor division, division
  of `Number` values is `ℚ` field division (with `x / 0 = 0`, matching the
  `NaN`-propagation of JS only in that comparisons against the result fail in
  the cases relevant here).
* Solidity 0.8 checked subtraction is modelled explicitly: a subtraction whose
  result would be negative produces the `panicUnderflow` outcome.  Addition
  overflow at `2^256` is outside the modelled range.
* Addresses are modelled as `ℕ` (the zero address is `0`); presentational
  fields of the JS objects (`feePercent`, `inversePrice`, `tick`, `timestamp`,
  and the `toFixed` string renderings) are omitted as they feed no computation.
* External contracts (ERC20 balances, routers, the Aave pool, the Uniswap
  factory) are modelled as an explicit environment/oracle passed to each entry
  point.
-/

/-! ## Configuration constants (src/bot/config.js) -/

/-- `UNISWAP_V3_ROUTER` from `src/bot/config.js`. -/
def UNISWAP_V3_ROUTER : ℕ := 0x2626664c2603336E57B271c5C0b26F421741e481

/-- `TOKENS.WETH` from `src/bot/config.js`. -/
def WETH : ℕ := 0x4200000000000000000000000000000000000006

/-- `TOKENS.USDC` from `src/bot/config.js`. -/
def USDC : ℕ := 0x833589fCD6eDb6E08f4c7C32D4f71b54bdA02913

/-- `TOKENS.USDT` from `src/bot/config.js`. -/
def USDT : ℕ := 0xfde4C96c8593536E31F229EA8f37b2ADa2699bb2

/-- `TOKENS.DAI` from `src/bot/config.js`. -/
def DAI : ℕ := 0x50c5725949A6F0c72E6C4a641F24049A917DB0Cb

/-- The `DECIMALS` map of `src/bot/config.js`; lookups elsewhere default to 18
(`DECIMALS[x] || 18`), which is folded in here. -/
def DECIMALS (token : ℕ) : ℕ :=
  if token = WETH then 18
  else if token = USDC then 6
  else if token = USDT then 6
  else if token = DAI then 18
  else 18

/-- `AAVE_FLASH_FEE_BPS` from `src/bot/config.js` (0.05%). -/
def AAVE_FLASH_FEE_BPS : ℕ := 5

/-! ## Price monitor (src/unnamed/part_002, class PriceMonitor) -/

/-- One element of the `prices` array built by `PriceMonitor.getPricesForPair`.
Fields that only feed logging (`feePercent`, `inversePrice`, `tick`,
`timestamp`) are omitted. -/
structure PoolQuote where
  dex : String
  factory : ℕ
  pool : ℕ
  fee : ℕ
  token0 : ℕ
  token1 : ℕ
  price : ℚ
  liquidity : ℕ
deriving DecidableEq

/-- One element of the `opportunities` array built by
`PriceMonitor.findArbitrageOpportunities`. -/
structure Opportunity where
  buyDex : String
  buyPool : ℕ
  buyFee : ℕ
  buyPrice : ℚ
  sellDex : String
  sellPool : ℕ
  sellFee : ℕ
  sellPrice : ℚ
  priceDiffPercent : ℚ
  totalFeePercent : ℚ
  grossProfitPercent : ℚ
  buyLiquidity : ℕ
  sellLiquidity : ℕ
  token0 : ℕ
  token1 : ℕ
deriving DecidableEq

/-- The body of the inner loop of `findArbitrageOpportunities` for one pair
`(priceA, priceB)`: the arithmetic on `priceDiff`, `avgPrice`, fee percentages
and the buy/sell assignment (`priceA.price < priceB.price ? priceA : priceB`). -/
def mkOpportunity (priceA priceB : PoolQuote) : Opportunity :=
  let priceDiff : ℚ := |priceA.price - priceB.price|
  let avgPrice : ℚ := (priceA.price + priceB.price) / 2
  let priceDiffPercent : ℚ := priceDiff / avgPrice * 100
  let totalFeeBps : ℚ := ((priceA.fee + priceB.fee : ℕ) : ℚ) / 100
  let totalFeePercent : ℚ := totalFeeBps / 100
  let grossProfitPercent : ℚ := priceDiffPercent - totalFeePercent
  let buyFrom := if priceA.price < priceB.price then priceA else priceB
  let sellTo := if priceA.price < priceB.price then priceB else priceA
  { buyDex := buyFrom.dex
    buyPool := buyFrom.pool
    buyFee := buyFrom.fee
    buyPrice := buyFrom.price
    sellDex := sellTo.dex
    sellPool := sellTo.pool
    sellFee := sellTo.fee
    sellPrice := sellTo.price
    priceDiffPercent := priceDiffPercent
    totalFeePercent := totalFeePercent
    grossProfitPercent := grossProfitPercent
    buyLiquidity := buyFrom.liquidity
    sellLiquidity := sellTo.liquidity
    token0 := buyFrom.token0
    token1 := buyFrom.token1 }

/-- The index pattern of the double loop `for i ... for j = i+1 ...`:
all ordered pairs `(xs[i], xs[j])` with `i < j`, in loop order. -/
def allPairs : List α → List (α × α)
  | [] => []
  | x :: xs => xs.map (fun y => (x, y)) ++ allPairs xs

/-- `PriceMonitor.findArbitrageOpportunities`: collect an `Opportunity` for
every pair whose `grossProfitPercent` is positive, then sort descending by
`grossProfitPercent` (the JS `sort` with comparator
`(a, b) => b.grossProfitPercent - a.grossProfitPercent` is a stable descending
sort, modelled by `List.insertionSort`). -/
def findArbitrageOpportunities (prices : List PoolQuote) : List Opportunity :=
  let opportunities :=
    (allPairs prices).filterMap (fun p =>
      let opp := mkOpportunity p.1 p.2
      if 0 < opp.grossProfitPercent then some opp else none)
  opportunities.insertionSort (fun a b => b.grossProfitPercent ≤ a.grossProfitPercent)

/-! ## Opportunity detector (src/unnamed/part_003, class OpportunityDetector) -/

/-- The configuration fields of an `OpportunityDetector` instance, after the
constructor's `options.x || SAFETY.X` defaulting has been resolved. -/
structure Detector where
  minProfitUsd : ℚ
  maxSlippageBps : ℚ
  minProfitBps : ℚ
  maxFlashloanPercent : ℕ
  ethPriceUsd : ℚ
  baseFeeGwei : ℚ
deriving DecidableEq

/-- The detector built by the constructor with empty `options`, using the
`SAFETY` fallback constants of `src/bot/config.js` (with no environment
overrides) and the literal fallbacks for `ethPriceUsd` and `baseFeeGwei`. -/
def defaultDetector : Detector :=
  { minProfitUsd := 1 / 2
    maxSlippageBps := 50
    minProfitBps := 10
    maxFlashloanPercent := 10
    ethPriceUsd := 3000
    baseFeeGwei := 1 / 1000 }

/-- Result shape of `OpportunityDetector.calculateOptimalAmount`.
`limitingPool` is the `'buy'`/`'sell'` string of the source. -/
structure SizingResult where
  maxFlashloan : ℕ
  optimalAmount : ℕ
  constrainingLiquidity : ℕ
  limitingPool : String
deriving DecidableEq

/-- `OpportunityDetector.calculateOptimalAmount`: all arithmetic is on
`BigInt`, so divisions are floor divisions. -/
def calculateOptimalAmount (det : Detector) (opportunity : Opportunity) : SizingResult :=
  let buyLiquidity := opportunity.buyLiquidity
  let sellLiquidity := opportunity.sellLiquidity
  let constrainingLiquidity := if buyLiquidity < sellLiquidity then buyLiquidity else sellLiquidity
  let maxFlashloan := constrainingLiquidity * det.maxFlashloanPercent / 100
  let optimalAmount := maxFlashloan / 10
  { maxFlashloan := maxFlashloan
    optimalAmount := optimalAmount
    constrainingLiquidity := constrainingLiquidity
    limitingPool := if buyLiquidity < sellLiquidity then "buy" else "sell" }

/-- Result shape of `OpportunityDetector.modelSlippage` (the `maxAllowedBps`
echo field is omitted). -/
structure SlippageEstimate where
  slippageBps : ℚ
  acceptable : Bool
deriving DecidableEq

/-- `OpportunityDetector.modelSlippage`: `impactRatio` is `BigInt` floor
division; the fee-tier multiplier is 3 / 2 / 1. -/
def modelSlippage (det : Detector) (tradeSize liquidity : ℕ) (feeTier : ℕ) : SlippageEstimate :=
  if liquidity = 0 then
    { slippageBps := 10000, acceptable := false }
  else
    let impactRatio : ℕ := tradeSize * 10000 / liquidity
    let feeMultiplier : ℕ := if feeTier = 100 then 3 else if feeTier = 500 then 2 else 1
    let slippageBps : ℚ := (impactRatio : ℚ) * (feeMultiplier : ℚ)
    { slippageBps := slippageBps
      acceptable := decide (slippageBps ≤ det.maxSlippageBps) }

/-- `OpportunityDetector.estimateGasCost`, reduced to the `gasCostUsd` field
(the other fields are echoes of the inputs). -/
def estimateGasCost (det : Detector) : ℚ :=
  let gasUnits : ℚ := 350000
  let gasCostEth := gasUnits * det.baseFeeGwei / 1000000000
  gasCostEth * det.ethPriceUsd

/-- Result shape of `OpportunityDetector.calculateProfit`.  Numeric fields are
kept as exact values; the source additionally renders them with `toFixed`,
which is presentation only. -/
structure ProfitAnalysis where
  borrowAmount : ℕ
  grossProfitAmount : ℚ
  flashFeeAmount : ℚ
  slippageCost : ℚ
  gasCostUsd : ℚ
  netProfitBeforeGas : ℚ
  netProfitAfterGas : ℚ
  profitBps : ℚ
  slippageAcceptable : Bool
  profitAcceptable : Bool
  bpsAcceptable : Bool
  isViable : Bool
deriving DecidableEq

/-- `OpportunityDetector.calculateProfit`. -/
def calculateProfit (det : Detector) (opportunity : Opportunity)
    (borrowAmount : ℕ) (tokenDecimals : ℕ) : ProfitAnalysis :=
  let amountFloat : ℚ := (borrowAmount : ℚ) / 10 ^ tokenDecimals
  let grossProfitPercent := opportunity.grossProfitPercent / 100
  let grossProfitAmount := amountFloat * grossProfitPercent
  let flashFeePercent : ℚ := (AAVE_FLASH_FEE_BPS : ℚ) / 10000
  let flashFeeAmount := amountFloat * flashFeePercent
  let buySlippage := modelSlippage det borrowAmount opportunity.buyLiquidity opportunity.buyFee
  let sellSlippage := modelSlippage det borrowAmount opportunity.sellLiquidity opportunity.sellFee
  let totalSlippagePercent := (buySlippage.slippageBps + sellSlippage.slippageBps) / 10000
  let slippageCost := amountFloat * totalSlippagePercent
  let gasCostUsd := estimateGasCost det
  let netProfitBeforeGas := grossProfitAmount - flashFeeAmount - slippageCost
  let netProfitAfterGas := netProfitBeforeGas - gasCostUsd
  let profitBps := netProfitAfterGas / amountFloat * 10000
  { borrowAmount := borrowAmount
    grossProfitAmount := grossProfitAmount
    flashFeeAmount := flashFeeAmount
    slippageCost := slippageCost
    gasCostUsd := gasCostUsd
    netProfitBeforeGas := netProfitBeforeGas
    netProfitAfterGas := netProfitAfterGas
    profitBps := profitBps
    slippageAcceptable := buySlippage.acceptable && sellSlippage.acceptable
    profitAcceptable := decide (det.minProfitUsd ≤ netProfitAfterGas)
    bpsAcceptable := decide (det.minProfitBps ≤ profitBps)
    isViable :=
      buySlippage.acceptable && sellSlippage.acceptable &&
      decide (det.minProfitUsd ≤ netProfitAfterGas) &&
      decide (det.minProfitBps ≤ profitBps) }

/-! ## Calldata encoder (src/bot/calldataEncoder.js, class CalldataEncoder) -/

/-- The `SwapInstruction` shape shared by the encoder and the contract
(`FlashloanExecutor.SwapInstruction`). -/
structure SwapInstruction where
  router : ℕ
  tokenIn : ℕ
  tokenOut : ℕ
  fee : ℕ
  amountIn : ℕ
  minAmountOut : ℕ
deriving DecidableEq

/-- `CalldataEncoder.createSwapInstruction`: `none` for `router` / `amountIn` /
`minAmountOut` models an absent (falsy) option, defaulted to the Uniswap
router, `'0'` and `'1'` respectively.  (At the call sites inside
`buildArbitrageParams` every field is passed explicitly as a truthy string, so
the defaults are never taken there.) -/
def createSwapInstruction (router : Option ℕ) (tokenIn tokenOut : ℕ) (fee : ℕ)
    (amountIn minAmountOut : Option ℕ) : SwapInstruction :=
  { router := router.getD UNISWAP_V3_ROUTER
    tokenIn := tokenIn
    tokenOut := tokenOut
    fee := fee
    amountIn := amountIn.getD 0
    minAmountOut := minAmountOut.getD 1 }

/-- The `ArbitrageParams` shape shared by the encoder and the contract. -/
structure ArbitrageParams where
  flashloanProvider : ℕ
  borrowToken : ℕ
  borrowAmount : ℕ
  minProfit : ℕ
  swaps : List SwapInstruction
deriving DecidableEq

/-- `CalldataEncoder.buildArbitrageParams`.  The `minProfit` line
`Math.max(0, Math.floor(expectedProfit * 0.5 * 1e6))` is `Int.toNat ∘ Int.floor`
of the rational value (`Math.max 0` and `Int.toNat` agree on integers);
`expectedProfit` is the parsed `netProfitAfterGas` of the profit analysis. -/
def buildArbitrageParams (executorAddress : ℕ) (opportunity : Opportunity)
    (sizing : SizingResult) (profitAnalysis : ProfitAnalysis) : ArbitrageParams :=
  let borrowToken := opportunity.token0
  let borrowAmount := sizing.optimalAmount
  let expectedProfit := profitAnalysis.netProfitAfterGas
  let minProfit : ℕ := (Int.floor (expectedProfit * (1 / 2) * 1000000)).toNat
  let swaps : List SwapInstruction :=
    [ createSwapInstruction (some UNISWAP_V3_ROUTER) opportunity.token0 opportunity.token1
        opportunity.buyFee (some borrowAmount) (some 1),
      createSwapInstruction (some UNISWAP_V3_ROUTER) opportunity.token1 opportunity.token0
        opportunity.sellFee (some 0) (some borrowAmount) ]
  { flashloanProvider := executorAddress
    borrowToken := borrowToken
    borrowAmount := borrowAmount
    minProfit := minProfit
    swaps := swaps }

/-- The spec's description of the on-chain minimum profit (§4.5): a safety
fraction (50%) of the estimated net profit after gas, "expressed as an absolute
amount in the borrowed token's smallest unit".  Written from the spec's words,
to be compared with the `minProfit` the code actually builds. -/
def specMinProfitSmallestUnit (netProfitAfterGas : ℚ) (borrowTokenDecimals : ℕ) : ℕ :=
  (Int.floor (netProfitAfterGas * (1 / 2) * 10 ^ borrowTokenDecimals)).toNat

/-! ## On-chain executor (src/contracts/FlashloanExecutor.sol) -/

/-- The distinguishing revert kinds of `FlashloanExecutor` (its custom errors),
plus the Solidity 0.8 checked-arithmetic panic on subtraction underflow, the
array out-of-bounds panic, and an `abi.decode` failure of the callback
payload. -/
inductive EvmError where
  | unauthorized
  | pausedErr
  | reentrancyGuard
  | invalidVault
  | invalidCallbackCaller
  | insufficientProfit (profit required : ℕ)
  | swapFailed (index : ℕ)
  | zeroBorrowAmount
  | emptySwaps
  | panicUnderflow
  | panicOutOfBounds
  | decodeFailure
deriving DecidableEq

deriving instance DecidableEq for Except

/-- `_status` value `NOT_ENTERED` of the reentrancy guard. -/
def NOT_ENTERED : ℕ := 1

/-- `_status` value `ENTERED` of the reentrancy guard. -/
def ENTERED : ℕ := 2

/-- Persistent state of a deployed `FlashloanExecutor`: storage variables plus
the two per-instance immutables (`address(this)` as `selfAddr`, and the
constructor-resolved `aavePool`). -/
structure ExecutorState where
  selfAddr : ℕ
  owner : ℕ
  vault : ℕ
  aavePool : ℕ
  paused : Bool
  status : ℕ
  minProfitBps : ℕ
deriving DecidableEq

/-- The `CallbackData` struct threaded through the flashloan payload. -/
structure CallbackData where
  borrowToken : ℕ
  borrowAmount : ℕ
  minProfit : ℕ
  swaps : List SwapInstruction
deriving DecidableEq

/-- Oracle for the external world during one execution: whether the swap
sequence reverts (and at which leg), the executor's balance of the borrowed
token after the swaps, its balance before the flashloan, and the Aave
premium charged for the loan. -/
structure ChainEnv where
  swapFail : Option ℕ
  postSwapBalance : ℕ
  balanceBefore : ℕ
  premium : ℕ
deriving DecidableEq

/-- `_executeSwaps`: each leg's `try`/`catch` maps an external revert of leg
`i` to `SwapFailed(i)`; otherwise the sequence completes.  The token mechanics
are delegated to the environment oracle. -/
def executeSwaps (env : ChainEnv) : Except EvmError Unit :=
  match env.swapFail with
  | some i => .error (.swapFailed i)
  | none => .ok ()

/-- `FlashloanExecutor.executeOperation` (the Aave flashloan callback).
Checked subtraction: the revert argument `balance - amountOwed` is evaluated
only inside the `balance < amountOwed + minProfit` branch and panics when
`balance < amountOwed`. -/
def executeOperation (st : ExecutorState) (sender asset amount premium initiator : ℕ)
    (data : CallbackData) (env : ChainEnv) : Except EvmError Unit :=
  if sender ≠ st.aavePool then .error .invalidCallbackCaller
  else if initiator ≠ st.selfAddr then .error .unauthorized
  else match executeSwaps env with
  | .error e => .error e
  | .ok () =>
    let amountOwed := amount + premium
    let balance := env.postSwapBalance
    if balance < amountOwed + data.minProfit then
      if balance < amountOwed then .error .panicUnderflow
      else .error (.insufficientProfit (balance - amountOwed) data.minProfit)
    else .ok ()

/-- `FlashloanExecutor.uniswapV3FlashCallback`.  The payload is decoded
*before* any caller check; the expected pool is resolved from the factory for
the tokens and fee of the payload's first swap (`swaps[0]`, an out-of-bounds
panic when the decoded swap list is empty).  `factoryGetPool` models the
configured Uniswap V3 factory's `getPool` view. -/
def uniswapV3FlashCallback (st : ExecutorState) (sender fee0 fee1 : ℕ)
    (data : Option CallbackData) (factoryGetPool : ℕ → ℕ → ℕ → ℕ)
    (env : ChainEnv) : Except EvmError Unit :=
  match data with
  | none => .error .decodeFailure
  | some callbackData =>
    match callbackData.swaps with
    | [] => .error .panicOutOfBounds
    | swap0 :: _ =>
      let expectedPool := factoryGetPool swap0.tokenIn swap0.tokenOut swap0.fee
      if sender ≠ expectedPool then .error .invalidCallbackCaller
      else match executeSwaps env with
      | .error e => .error e
      | .ok () =>
        let fee := if 0 < fee0 then fee0 else fee1
        let amountOwed := callbackData.borrowAmount + fee
        let balance := env.postSwapBalance
        if balance < amountOwed + callbackData.minProfit then
          if balance < amountOwed then .error .panicUnderflow
          else .error (.insufficientProfit (balance - amountOwed) callbackData.minProfit)
        else .ok ()

/-- `FlashloanExecutor.executeWithAave`.  Modifier order is `onlyOwner`,
`whenNotPaused`, `nonReentrant`; the Aave pool invokes `executeOperation` with
the pool as caller and this contract as initiator; any revert inside the
flashloan aborts the whole transaction (the lock rolls back with it).  On
success the result carries the post-transaction storage (lock released) and
the profit forwarded to the vault. -/
def executeWithAave (st : ExecutorState) (sender : ℕ) (params : ArbitrageParams)
    (env : ChainEnv) : Except EvmError (ExecutorState × ℕ) :=
  if sender ≠ st.owner then .error .unauthorized
  else if st.paused then .error .pausedErr
  else if st.status = ENTERED then .error .reentrancyGuard
  else if params.borrowAmount = 0 then .error .zeroBorrowAmount
  else if params.swaps.length = 0 then .error .emptySwaps
  else
    let data : CallbackData :=
      { borrowToken := params.borrowToken
        borrowAmount := params.borrowAmount
        minProfit := params.minProfit
        swaps := params.swaps }
    let balanceBefore := env.balanceBefore
    match executeOperation st st.aavePool params.borrowToken params.borrowAmount
        env.premium st.selfAddr data env with
    | .error e => .error e
    | .ok () =>
      let balanceAfter := env.postSwapBalance - (params.borrowAmount + env.premium)
      if balanceAfter < balanceBefore then .error .panicUnderflow
      else
        let profit := balanceAfter - balanceBefore
        .ok ({ st with status := NOT_ENTERED }, profit)

/-- `FlashloanExecutor.transferOwnership` (owner-gated only). -/
def transferOwnership (st : ExecutorState) (sender newOwner : ℕ) : Except EvmError ExecutorState :=
  if sender ≠ st.owner then .error .unauthorized
  else if newOwner = 0 then .error .unauthorized
  else .ok { st with owner := newOwner }

/-- `FlashloanExecutor.setVault` (owner-gated only). -/
def setVault (st : ExecutorState) (sender newVault : ℕ) : Except EvmError ExecutorState :=
  if sender ≠ st.owner then .error .unauthorized
  else if newVault = 0 then .error .invalidVault
  else .ok { st with vault := newVault }

/-- `FlashloanExecutor.togglePause` (owner-gated only). -/
def togglePause (st : ExecutorState) (sender : ℕ) : Except EvmError ExecutorState :=
  if sender ≠ st.owner then .error .unauthorized
  else .ok { st with paused := !st.paused }

/-- `FlashloanExecutor.setMinProfit` (owner-gated only). -/
def setMinProfit (st : ExecutorState) (sender newMinProfitBps : ℕ) : Except EvmError ExecutorState :=
  if sender ≠ st.owner then .error .unauthorized
  else .ok { st with minProfitBps := newMinProfitBps }

/-- `FlashloanExecutor.emergencyWithdraw` (owner-gated only); the returned
number is the token balance transferred to the vault. -/
def emergencyWithdraw (st : ExecutorState) (sender tokenBalance : ℕ) :
    Except EvmError (ExecutorState × ℕ) :=
  if sender ≠ st.owner then .error .unauthorized
  else .ok (st, tokenBalance)

/-- `true` exactly on reverted outcomes. -/
def isErrorB : Except EvmError α → Bool
  | .error _ => true
  | .ok _ => false

/-- `true` exactly when the outcome is an `InsufficientProfit` revert. -/
def isInsufficientProfitB : Except EvmError α → Bool
  | .error (.insufficientProfit _ _) => true
  | _ => false

/-! ## Concrete inputs used by witnesses and counterexamples -/

/-- A quote on the Uniswap venue. -/
def qA : PoolQuote :=
  { dex := "Uniswap", factory := 1, pool := 2, fee := 0, token0 := WETH, token1 := USDC,
    price := 100, liquidity := 1000 }

/-- A quote on the SushiSwap venue at a higher price. -/
def qB : PoolQuote :=
  { dex := "SushiSwap", factory := 3, pool := 4, fee := 0, token0 := WETH, token1 := USDC,
    price := 200, liquidity := 2000 }

/-- An opportunity whose buy side sits on the SushiSwap venue. -/
def oppSushiBuy : Opportunity :=
  { buyDex := "SushiSwap", buyPool := 11, buyFee := 500, buyPrice := 1,
    sellDex := "Uniswap", sellPool := 12, sellFee := 3000, sellPrice := 2,
    priceDiffPercent := 0, totalFeePercent := 0, grossProfitPercent := 1,
    buyLiquidity := 1000, sellLiquidity := 2000, token0 := WETH, token1 := USDC }

/-- The same opportunity with its buy side on the Uniswap venue instead. -/
def oppUniBuy : Opportunity :=
  { oppSushiBuy with buyDex := "Uniswap", buyPool := 12 }

/-- A concrete sizing result. -/
def szEx : SizingResult :=
  { maxFlashloan := 100, optimalAmount := 10, constrainingLiquidity := 1000,
    limitingPool := "buy" }

/-- A concrete profit analysis with an estimated net profit of 10 USD. -/
def paEx : ProfitAnalysis :=
  { borrowAmount := 10, grossProfitAmount := 11, flashFeeAmount := 0, slippageCost := 0,
    gasCostUsd := 1, netProfitBeforeGas := 11, netProfitAfterGas := 10, profitBps := 100,
    slippageAcceptable := true, profitAcceptable := true, bpsAcceptable := true,
    isViable := true }

/-! ## C3: viability flag is the conjunction of the three component flags -/

/-- C3: for every `ProfitAnalysis` produced by `calculateProfit`, `isViable` is
true if and only if `slippageAcceptable`, `profitAcceptable` and
`bpsAcceptable` are all true; there is no input on which `isViable` holds
while a component flag fails. -/
theorem isViable_iff_component_flags (det : Detector) (opp : Opportunity)
    (amount tokenDecimals : ℕ) :
    (calculateProfit det opp amount tokenDecimals).isViable = true ↔
      ((calculateProfit det opp amount tokenDecimals).slippageAcceptable = true ∧
       (calculateProfit det opp amount tokenDecimals).profitAcceptable = true ∧
       (calculateProfit det opp amount tokenDecimals).bpsAcceptable = true) := by
  simp [calculateProfit, and_assoc]

/-! ## C5: sizing respects the binding-liquidity bound -/

/-- `if a < b then a else b` coincides with `min` on `ℕ`. -/
lemma ite_lt_eq_min (a b : ℕ) : (if a < b then a else b) = min a b := by
  rcases le_or_lt b a with h | h
  · rw [if_neg (not_lt.mpr h), min_eq_right h]
  · rw [if_pos h, min_eq_left h.le]

/-- C5: every `SizingResult` of `calculateOptimalAmount` satisfies
`optimalAmount ≤ maxFlashloan ≤ bindingLiquidity * maxFlashloanPercent / 100`
with `bindingLiquidity = min(buy, sell)`, `maxFlashloan` exactly that bound
and `optimalAmount = maxFlashloan / 10` (integer division). -/
theorem sizing_within_liquidity_bound (det : Detector) (opp : Opportunity) :
    (calculateOptimalAmount det opp).optimalAmount ≤ (calculateOptimalAmount det opp).maxFlashloan ∧
    (calculateOptimalAmount det opp).maxFlashloan ≤
      min opp.buyLiquidity opp.sellLiquidity * det.maxFlashloanPercent / 100 ∧
    (calculateOptimalAmount det opp).maxFlashloan =
      min opp.buyLiquidity opp.sellLiquidity * det.maxFlashloanPercent / 100 ∧
    (calculateOptimalAmount det opp).optimalAmount =
      (calculateOptimalAmount det opp).maxFlashloan / 10 := by
  have hmax : (calculateOptimalAmount det opp).maxFlashloan =
      min opp.buyLiquidity opp.sellLiquidity * det.maxFlashloanPercent / 100 := by
    simp [calculateOptimalAmount, ite_lt_eq_min]
  exact ⟨Nat.div_le_self _ _, hmax.le, hmax, rfl⟩

/-! ## C6: the built transaction always has exactly two swap legs -/

/-- C6 (amended): `buildArbitrageParams` always produces exactly two legs;
leg 1 spends the full borrowed amount of the borrowed token at the buy side's
fee tier, leg 2 carries the sentinel zero input, swaps the intermediate token
back to the borrowed token at the sell side's fee tier with `minAmountOut` at
least the borrowed amount — but both legs are directed at the fixed configured
Uniswap V3 router, irrespective of either side's venue. -/
theorem two_leg_swap_sequence (e : ℕ) (opp : Opportunity) (sz : SizingResult)
    (pa : ProfitAnalysis) :
    ∃ leg1 leg2 : SwapInstruction,
      (buildArbitrageParams e opp sz pa).swaps = [leg1, leg2] ∧
      leg1.amountIn = (buildArbitrageParams e opp sz pa).borrowAmount ∧
      leg1.tokenIn = (buildArbitrageParams e opp sz pa).borrowToken ∧
      leg1.tokenOut = opp.token1 ∧
      leg1.fee = opp.buyFee ∧
      leg1.router = UNISWAP_V3_ROUTER ∧
      leg2.amountIn = 0 ∧
      leg2.tokenIn = opp.token1 ∧
      leg2.tokenOut = (buildArbitrageParams e opp sz pa).borrowToken ∧
      leg2.fee = opp.sellFee ∧
      leg2.router = UNISWAP_V3_ROUTER ∧
      (buildArbitrageParams e opp sz pa).borrowAmount ≤ leg2.minAmountOut :=
  ⟨_, _, rfl, rfl, rfl, rfl, rfl, rfl, rfl, rfl, rfl, rfl, rfl, Nat.le_refl _⟩

/-- C6 (counterexample): the built swap legs do not depend on the sides'
venues at all — two opportunities that differ exactly in the buy-side venue
produce identical parameters, and every leg's router is the fixed
`UNISWAP_V3_ROUTER`; so leg 1 is not "directed at the buy side's venue" when
that venue is SushiSwap. -/
theorem swap_legs_ignore_venue :
    buildArbitrageParams 99 oppSushiBuy szEx paEx = buildArbitrageParams 99 oppUniBuy szEx paEx ∧
    oppSushiBuy.buyDex ≠ oppUniBuy.buyDex ∧
    ((buildArbitrageParams 99 oppSushiBuy szEx paEx).swaps.map SwapInstruction.router) =
      [UNISWAP_V3_ROUTER, UNISWAP_V3_ROUTER] :=
  ⟨rfl, by decide, rfl⟩

/-! ## C7: the submitted minProfit -/

/-- C7 (amended): the `minProfit` submitted on-chain is
`max(0, floor(netProfitAfterGas × 0.5 × 10^6))` — half the USD-denominated
off-chain estimate scaled by a fixed `10^6`, i.e. the spec's "smallest unit"
conversion specialized to 6 decimals, regardless of the borrowed token's
actual decimals. -/
theorem min_profit_is_half_at_fixed_scale (e : ℕ) (opp : Opportunity)
    (sz : SizingResult) (pa : ProfitAnalysis) :
    (buildArbitrageParams e opp sz pa).minProfit =
      specMinProfitSmallestUnit pa.netProfitAfterGas 6 := by
  simp only [buildArbitrageParams, specMinProfitSmallestUnit]
  norm_num

/-- C7 (counterexample): for a borrowed token with 18 decimals (WETH) and an
estimated net profit of 10, the code submits `5000000` while 50% of the
estimate in the borrowed token's smallest unit is `5 × 10^18`. -/
theorem min_profit_ignores_token_decimals :
    (buildArbitrageParams 99 oppSushiBuy szEx paEx).borrowToken = WETH ∧
    DECIMALS WETH = 18 ∧
    paEx.netProfitAfterGas = 10 ∧
    (buildArbitrageParams 99 oppSushiBuy szEx paEx).minProfit = 5000000 ∧
    specMinProfitSmallestUnit paEx.netProfitAfterGas
      (DECIMALS ((buildArbitrageParams 99 oppSushiBuy szEx paEx).borrowToken)) =
      5000000000000000000 ∧
    (buildArbitrageParams 99 oppSushiBuy szEx paEx).minProfit ≠
      specMinProfitSmallestUnit paEx.netProfitAfterGas
        (DECIMALS ((buildArbitrageParams 99 oppSushiBuy szEx paEx).borrowToken)) := by
  refine ⟨rfl, by norm_num [DECIMALS], rfl, ?_, ?_, ?_⟩ <;>
    norm_num [buildArbitrageParams, specMinProfitSmallestUnit, DECIMALS, paEx, oppSushiBuy,
      szEx] <;> decide

/-! ## C4: pairwise emission criterion and buy-side assignment -/

/-- The `grossProfitPercent` of a constructed opportunity, in closed form. -/
lemma mkOpportunity_gross (a b : PoolQuote) :
    (mkOpportunity a b).grossProfitPercent =
      |a.price - b.price| / ((a.price + b.price) / 2) * 100 -
        ((a.fee : ℚ) + (b.fee : ℚ)) / 100 / 100 := by
  simp [mkOpportunity]

/-- The buy price of a constructed opportunity. -/
lemma mkOpportunity_buyPrice (a b : PoolQuote) :
    (mkOpportunity a b).buyPrice = if a.price < b.price then a.price else b.price := by
  simp [mkOpportunity, apply_ite PoolQuote.price]

/-- The sell price of a constructed opportunity. -/
lemma mkOpportunity_sellPrice (a b : PoolQuote) :
    (mkOpportunity a b).sellPrice = if a.price < b.price then b.price else a.price := by
  simp [mkOpportunity, apply_ite PoolQuote.price]

/-- A positive gross profit forces the two prices to differ, hence the
buy side gets the strictly lower price. -/
lemma buy_lt_sell_of_gross_pos (a b : PoolQuote)
    (h : 0 < (mkOpportunity a b).grossProfitPercent) :
    (mkOpportunity a b).buyPrice < (mkOpportunity a b).sellPrice := by
  have hne : a.price ≠ b.price := by
    intro he
    rw [mkOpportunity_gross, he] at h
    have hfee : (0:ℚ) ≤ ((a.fee : ℚ) + (b.fee : ℚ)) / 100 / 100 := by positivity
    simp only [sub_self, abs_zero, zero_div, zero_mul, zero_sub] at h
    linarith
  rw [mkOpportunity_buyPrice, mkOpportunity_sellPrice]
  rcases lt_or_gt_of_ne hne with h1 | h1
  · rw [if_pos h1, if_pos h1]; exact h1
  · rw [if_neg (not_lt.mpr h1.le), if_neg (not_lt.mpr h1.le)]; exact h1

/-- Membership in the detector's output, characterised by the pairwise
positivity filter. -/
lemma mem_findArbitrage_iff (prices : List PoolQuote) (o : Opportunity) :
    o ∈ findArbitrageOpportunities prices ↔
      ∃ p ∈ allPairs prices,
        0 < (mkOpportunity p.1 p.2).grossProfitPercent ∧ o = mkOpportunity p.1 p.2 := by
  unfold findArbitrageOpportunities
  rw [List.mem_insertionSort, List.mem_filterMap]
  constructor
  · rintro ⟨p, hp, hf⟩
    by_cases h : 0 < (mkOpportunity p.1 p.2).grossProfitPercent
    · refine ⟨p, hp, h, ?_⟩
      simp only [h, if_pos, Option.some.injEq] at hf
      exact hf.symm
    · simp [h] at hf
  · rintro ⟨p, hp, h, rfl⟩
    exact ⟨p, hp, by simp [h]⟩

/-- C4: the detector computes `priceDiffPercent = |p1 - p2| / avg * 100` and
`feePercent = (fee1 + fee2) / 100 / 100` for each pair; an `Opportunity` for a
pair of the input list is emitted iff `grossProfitPercent = priceDiffPercent -
feePercent > 0`; every emitted opportunity has its buy side at the strictly
lower price. -/
theorem detector_pairwise_emission (prices : List PoolQuote) (o : Opportunity)
    (p : PoolQuote × PoolQuote) (a b : PoolQuote)
    (hp : p ∈ allPairs prices)
    (hgross : 0 < (mkOpportunity p.1 p.2).grossProfitPercent)
    (ho : o ∈ findArbitrageOpportunities prices) :
    ((mkOpportunity a b).priceDiffPercent =
        |a.price - b.price| / ((a.price + b.price) / 2) * 100 ∧
      (mkOpportunity a b).totalFeePercent = ((a.fee : ℚ) + (b.fee : ℚ)) / 100 / 100 ∧
      (mkOpportunity a b).grossProfitPercent =
        (mkOpportunity a b).priceDiffPercent - (mkOpportunity a b).totalFeePercent) ∧
    mkOpportunity p.1 p.2 ∈ findArbitrageOpportunities prices ∧
    (∃ q ∈ allPairs prices,
        0 < (mkOpportunity q.1 q.2).grossProfitPercent ∧ o = mkOpportunity q.1 q.2) ∧
    o.buyPrice < o.sellPrice := by
  refine ⟨⟨by simp [mkOpportunity], by simp [mkOpportunity], by simp [mkOpportunity]⟩, ?_, ?_, ?_⟩
  · exact (mem_findArbitrage_iff prices _).mpr ⟨p, hp, hgross, rfl⟩
  · exact (mem_findArbitrage_iff prices o).mp ho
  · obtain ⟨q, _, hq, rfl⟩ := (mem_findArbitrage_iff prices o).mp ho
    exact buy_lt_sell_of_gross_pos q.1 q.2 hq

/-- The concrete pair `(qA, qB)` has a positive gross profit percentage. -/
lemma gross_qA_qB_pos : 0 < (mkOpportunity qA qB).grossProfitPercent := by
  rw [mkOpportunity_gross]
  have h1 : |qA.price - qB.price| = 100 := by
    simp only [qA, qB]
    rw [show (100 : ℚ) - 200 = -(100 : ℚ) by norm_num, abs_neg,
      abs_of_nonneg (by norm_num : (0 : ℚ) ≤ 100)]
  rw [h1]
  norm_num [qA, qB]

/-- Witness for C4 at a concrete two-quote list: the pair `(qA, qB)` has
positive gross profit, its opportunity is emitted, and its buy side is the
lower-priced quote. -/
theorem detector_pairwise_emission_witness :
    ((mkOpportunity qA qB).priceDiffPercent =
        |qA.price - qB.price| / ((qA.price + qB.price) / 2) * 100 ∧
      (mkOpportunity qA qB).totalFeePercent = ((qA.fee : ℚ) + (qB.fee : ℚ)) / 100 / 100 ∧
      (mkOpportunity qA qB).grossProfitPercent =
        (mkOpportunity qA qB).priceDiffPercent - (mkOpportunity qA qB).totalFeePercent) ∧
    mkOpportunity qA qB ∈ findArbitrageOpportunities [qA, qB] ∧
    (∃ q ∈ allPairs [qA, qB],
        0 < (mkOpportunity q.1 q.2).grossProfitPercent ∧
          mkOpportunity qA qB = mkOpportunity q.1 q.2) ∧
    (mkOpportunity qA qB).buyPrice < (mkOpportunity qA qB).sellPrice :=
  detector_pairwise_emission [qA, qB] (mkOpportunity qA qB) (qA, qB) qA qB
    (by simp [allPairs]) gross_qA_qB_pos
    ((mem_findArbitrage_iff [qA, qB] _).mpr ⟨(qA, qB), by simp [allPairs], gross_qA_qB_pos, rfl⟩)

/-! ## Concrete on-chain states and environments -/

/-- A concrete swap instruction. -/
def swapRun : SwapInstruction :=
  { router := UNISWAP_V3_ROUTER, tokenIn := USDC, tokenOut := WETH, fee := 500,
    amountIn := 10, minAmountOut := 1 }

/-- A deployed executor with the lock released. -/
def stRun : ExecutorState :=
  { selfAddr := 4, owner := 5, vault := 6, aavePool := 1, paused := false,
    status := 1, minProfitBps := 10 }

/-- The same executor observed while the reentrancy lock is held. -/
def stEntered : ExecutorState := { stRun with status := 2 }

/-- An environment in which the swaps succeed and leave a balance of 100. -/
def envRun : ChainEnv :=
  { swapFail := none, postSwapBalance := 100, balanceBefore := 0, premium := 0 }

/-- Post-swap balance exactly one below `amountOwed + minProfit`. -/
def envShort : ChainEnv := { envRun with postSwapBalance := 14 }

/-- Post-swap balance strictly below `amountOwed` (principal lost). -/
def envLoss : ChainEnv := { envRun with postSwapBalance := 7 }

/-- Callback data demanding a minimum profit of 5. -/
def cdMp5 : CallbackData :=
  { borrowToken := USDC, borrowAmount := 10, minProfit := 5, swaps := [swapRun] }

/-- Callback data an attacker can craft (no profit floor). -/
def cdAtk : CallbackData :=
  { borrowToken := USDC, borrowAmount := 10, minProfit := 0, swaps := [swapRun] }

/-- A factory whose `getPool` resolves every triple to address 7. -/
def atkFactory : ℕ → ℕ → ℕ → ℕ := fun _ _ _ => 7

/-- Concrete arbitrage parameters. -/
def paramsRun : ArbitrageParams :=
  { flashloanProvider := 1, borrowToken := USDC, borrowAmount := 10, minProfit := 1,
    swaps := [swapRun] }

/-! ## Settlement helper lemmas (shared by C2 and C10) -/

/-- `executeOperation` on an authorized call with succeeding swaps, reduced to
its settlement decision. -/
lemma executeOperation_authorized (st : ExecutorState) (asset amount premium : ℕ)
    (data : CallbackData) (env : ChainEnv) (hw : env.swapFail = none) :
    executeOperation st st.aavePool asset amount premium st.selfAddr data env =
      if env.postSwapBalance < amount + premium + data.minProfit then
        (if env.postSwapBalance < amount + premium then Except.error .panicUnderflow
         else Except.error (.insufficientProfit (env.postSwapBalance - (amount + premium))
                data.minProfit))
      else Except.ok () := by
  simp [executeOperation, executeSwaps, hw]

/-- The settlement reverts with `InsufficientProfit` exactly when the balance
covers the debt but not the debt plus the profit floor. -/
lemma isInsufficientProfitB_iff (st : ExecutorState) (asset amount premium : ℕ)
    (data : CallbackData) (env : ChainEnv) (hw : env.swapFail = none) :
    isInsufficientProfitB
        (executeOperation st st.aavePool asset amount premium st.selfAddr data env) = true ↔
      amount + premium ≤ env.postSwapBalance ∧
        env.postSwapBalance < amount + premium + data.minProfit := by
  rw [executeOperation_authorized st asset amount premium data env hw]
  constructor
  · intro h
    split_ifs at h with h1 h2
    · simp [isInsufficientProfitB] at h
    · exact ⟨not_lt.mp h2, h1⟩
    · simp [isInsufficientProfitB] at h
  · rintro ⟨h1, h2⟩
    rw [if_pos h2, if_neg (not_lt.mpr h1)]
    rfl

/-! ## C2: the profit floor at settlement -/

/-- C2 (amended): with `amountOwed = amount + premium`, the settlement reverts
with `InsufficientProfit` iff `amountOwed ≤ balance < amountOwed + minProfit`,
reporting actual profit `balance - amountOwed` against required `minProfit`;
a balance of exactly `amountOwed + minProfit` succeeds, and a balance of
`amountOwed + minProfit - 1` (with `minProfit ≥ 1`) reverts with a reported
shortfall of 1.  (A balance below `amountOwed` panics instead, see C10.) -/
theorem settlement_profit_floor (st : ExecutorState)
    (sender asset amount premium initiator : ℕ) (data : CallbackData) (env : ChainEnv)
    (hs : sender = st.aavePool) (hi : initiator = st.selfAddr)
    (hw : env.swapFail = none) :
    (isInsufficientProfitB
        (executeOperation st sender asset amount premium initiator data env) = true ↔
      amount + premium ≤ env.postSwapBalance ∧
        env.postSwapBalance < amount + premium + data.minProfit) ∧
    (env.postSwapBalance = amount + premium + data.minProfit →
      executeOperation st sender asset amount premium initiator data env = .ok ()) ∧
    (amount + premium ≤ env.postSwapBalance →
      env.postSwapBalance < amount + premium + data.minProfit →
      executeOperation st sender asset amount premium initiator data env =
        .error (.insufficientProfit (env.postSwapBalance - (amount + premium))
          data.minProfit)) ∧
    (1 ≤ data.minProfit → env.postSwapBalance = amount + premium + data.minProfit - 1 →
      executeOperation st sender asset amount premium initiator data env =
        .error (.insufficientProfit (data.minProfit - 1) data.minProfit)) := by
  subst hs hi
  refine ⟨isInsufficientProfitB_iff st asset amount premium data env hw, ?_, ?_, ?_⟩
  · intro h
    rw [executeOperation_authorized st asset amount premium data env hw, if_neg (by omega)]
  · intro h1 h2
    rw [executeOperation_authorized st asset amount premium data env hw, if_pos h2,
      if_neg (not_lt.mpr h1)]
  · intro h1 h2
    rw [executeOperation_authorized st asset amount premium data env hw,
      if_pos (by omega : env.postSwapBalance < amount + premium + data.minProfit),
      if_neg (by omega : ¬ env.postSwapBalance < amount + premium)]
    have h3 : env.postSwapBalance - (amount + premium) = data.minProfit - 1 := by omega
    rw [h3]

/-- Witness for C2 at a concrete boundary-minus-one state (balance 14,
amountOwed 10, minProfit 5). -/
theorem settlement_profit_floor_witness :
    (isInsufficientProfitB
        (executeOperation stRun 1 USDC 10 0 4 cdMp5 envShort) = true ↔
      10 + 0 ≤ envShort.postSwapBalance ∧
        envShort.postSwapBalance < 10 + 0 + cdMp5.minProfit) ∧
    (envShort.postSwapBalance = 10 + 0 + cdMp5.minProfit →
      executeOperation stRun 1 USDC 10 0 4 cdMp5 envShort = .ok ()) ∧
    (10 + 0 ≤ envShort.postSwapBalance →
      envShort.postSwapBalance < 10 + 0 + cdMp5.minProfit →
      executeOperation stRun 1 USDC 10 0 4 cdMp5 envShort =
        .error (.insufficientProfit (envShort.postSwapBalance - (10 + 0)) cdMp5.minProfit)) ∧
    (1 ≤ cdMp5.minProfit → envShort.postSwapBalance = 10 + 0 + cdMp5.minProfit - 1 →
      executeOperation stRun 1 USDC 10 0 4 cdMp5 envShort =
        .error (.insufficientProfit (cdMp5.minProfit - 1) cdMp5.minProfit)) :=
  settlement_profit_floor stRun 1 USDC 10 0 4 cdMp5 envShort rfl rfl rfl

/-- C2 (counterexample): balance 7 is below `amountOwed + minProfit = 15`, yet
the revert is the arithmetic panic, not the `InsufficientProfit` error — so
"reverts with insufficient-profit iff balance < amountOwed + minProfit" is
false as stated. -/
theorem insufficient_profit_iff_fails_on_loss :
    envLoss.postSwapBalance < 10 + 0 + cdMp5.minProfit ∧
    executeOperation stRun 1 USDC 10 0 4 cdMp5 envLoss = .error .panicUnderflow ∧
    isInsufficientProfitB (executeOperation stRun 1 USDC 10 0 4 cdMp5 envLoss) = false := by
  refine ⟨by decide, by decide, by decide⟩

/-! ## C10: principal loss panics before the InsufficientProfit revert -/

/-- C10: when the post-swap balance is strictly below `amountOwed`, the checked
subtraction `balance - amountOwed` inside the revert underflows, so the call
reverts with an arithmetic panic; `InsufficientProfit` is reported exactly when
`amountOwed ≤ balance < amountOwed + minProfit`. -/
theorem settlement_panic_on_principal_loss (st : ExecutorState)
    (sender asset amount premium initiator : ℕ) (data : CallbackData) (env : ChainEnv)
    (hs : sender = st.aavePool) (hi : initiator = st.selfAddr)
    (hw : env.swapFail = none) :
    (env.postSwapBalance < amount + premium →
      executeOperation st sender asset amount premium initiator data env =
        .error .panicUnderflow) ∧
    (isInsufficientProfitB
        (executeOperation st sender asset amount premium initiator data env) = true ↔
      amount + premium ≤ env.postSwapBalance ∧
        env.postSwapBalance < amount + premium + data.minProfit) := by
  subst hs hi
  refine ⟨?_, isInsufficientProfitB_iff st asset amount premium data env hw⟩
  intro h
  rw [executeOperation_authorized st asset amount premium data env hw,
    if_pos (by omega), if_pos h]

/-- Witness for C10 at a concrete principal-loss state (balance 7, debt 10). -/
theorem settlement_panic_witness :
    (envLoss.postSwapBalance < 10 + 0 →
      executeOperation stRun 1 USDC 10 0 4 cdMp5 envLoss = .error .panicUnderflow) ∧
    (isInsufficientProfitB (executeOperation stRun 1 USDC 10 0 4 cdMp5 envLoss) = true ↔
      10 + 0 ≤ envLoss.postSwapBalance ∧
        envLoss.postSwapBalance < 10 + 0 + cdMp5.minProfit) :=
  settlement_panic_on_principal_loss stRun 1 USDC 10 0 4 cdMp5 envLoss rfl rfl rfl

/-! ## C1: callback caller authentication -/

/-- C1 (amended): `executeOperation` reverts with the callback-caller error for
every caller other than the stored Aave pool, before touching the payload, and
with `Unauthorized` when the initiator is not the executor itself.
`uniswapV3FlashCallback`, however, decodes the payload first and checks the
caller against the factory-resolved pool of the payload's *first swap* — a
payload-dependent address rather than a stored configured one; a wrong caller
by that measure gets the callback-caller error, while an undecodable payload
reverts with a decode failure irrespective of the caller. -/
theorem callback_caller_auth (st : ExecutorState)
    (sender1 sender3 sender5 asset amount premium initiator fee0 fee1 : ℕ)
    (data cd : CallbackData) (s0 : SwapInstruction) (rest : List SwapInstruction)
    (factoryGetPool : ℕ → ℕ → ℕ → ℕ) (env : ChainEnv)
    (h1 : sender1 ≠ st.aavePool)
    (h2 : initiator ≠ st.selfAddr)
    (hcd : cd.swaps = s0 :: rest)
    (h3 : sender3 ≠ factoryGetPool s0.tokenIn s0.tokenOut s0.fee) :
    executeOperation st sender1 asset amount premium initiator data env =
      .error .invalidCallbackCaller ∧
    executeOperation st st.aavePool asset amount premium initiator data env =
      .error .unauthorized ∧
    uniswapV3FlashCallback st sender3 fee0 fee1 (some cd) factoryGetPool env =
      .error .invalidCallbackCaller ∧
    uniswapV3FlashCallback st sender5 fee0 fee1 none factoryGetPool env =
      .error .decodeFailure := by
  refine ⟨?_, ?_, ?_, rfl⟩
  · simp [executeOperation, h1]
  · simp [executeOperation, h2]
  · simp [uniswapV3FlashCallback, hcd, h3]

/-- Witness for C1 at concrete addresses. -/
theorem callback_caller_auth_witness :
    executeOperation stRun 2 USDC 10 0 3 cdMp5 envRun = .error .invalidCallbackCaller ∧
    executeOperation stRun stRun.aavePool USDC 10 0 3 cdMp5 envRun = .error .unauthorized ∧
    uniswapV3FlashCallback stRun 6 1 0 (some cdMp5) atkFactory envRun =
      .error .invalidCallbackCaller ∧
    uniswapV3FlashCallback stRun 8 1 0 none atkFactory envRun = .error .decodeFailure :=
  callback_caller_auth stRun 2 6 8 USDC 10 0 3 1 0 cdMp5 cdMp5 swapRun [] atkFactory envRun
    (by decide) (by decide) rfl (by decide)

/-- C1 (counterexample): a caller (address 7) that is not the configured
lending pool invokes `uniswapV3FlashCallback` with a payload whose first-swap
pool resolves to itself, and the call completes without reverting — so "any
caller other than the configured lending-pool address always reverts with the
unauthorized-caller error" is false for the Uniswap callback. -/
theorem uniswap_callback_accepts_forged_caller :
    (7 : ℕ) ≠ stRun.aavePool ∧
    uniswapV3FlashCallback stRun 7 1 0 (some cdAtk) atkFactory envRun = .ok () := by
  refine ⟨by decide, by decide⟩

/-! ## C8: scope of the reentrancy lock -/

/-- A successful `executeWithAave` always ends with the lock released. -/
lemma executeWithAave_status_reset (st : ExecutorState) (s : ℕ) (p : ArbitrageParams)
    (e : ChainEnv) (r : ExecutorState × ℕ)
    (h : executeWithAave st s p e = .ok r) : r.1.status = NOT_ENTERED := by
  simp only [executeWithAave] at h
  split at h
  · exact Except.noConfusion h
  split at h
  · exact Except.noConfusion h
  split at h
  · exact Except.noConfusion h
  split at h
  · exact Except.noConfusion h
  split at h
  · exact Except.noConfusion h
  split at h
  · exact Except.noConfusion h
  · split at h
    · exact Except.noConfusion h
    · injection h with h'
      subst h'
      rfl

/-- C8 (amended): while the lock is held, re-entering `executeWithAave` always
reverts (with `Unauthorized`, `Paused` or `ReentrancyGuard` depending on the
caller and pause flag); the administrative functions are guarded only by
`onlyOwner`, so a re-entrant call from any non-owner address reverts
`Unauthorized`, but a call with the owner as sender succeeds even while the
lock is held; and every completed top-level `executeWithAave` starts and ends
with the lock at `NOT_ENTERED`. -/
theorem reentrancy_lock_scope (st st2 : ExecutorState) (s1 s2 s4 x v n bal : ℕ)
    (params params2 : ArbitrageParams) (env env2 : ChainEnv) (r : ExecutorState × ℕ)
    (hent : st.status = ENTERED)
    (hs2 : s2 ≠ st.owner)
    (hv : v ≠ 0)
    (hns : st2.status = NOT_ENTERED)
    (hok : executeWithAave st2 s4 params2 env2 = .ok r) :
    isErrorB (executeWithAave st s1 params env) = true ∧
    transferOwnership st s2 x = .error .unauthorized ∧
    setVault st s2 v = .error .unauthorized ∧
    togglePause st s2 = .error .unauthorized ∧
    setMinProfit st s2 n = .error .unauthorized ∧
    emergencyWithdraw st s2 bal = .error .unauthorized ∧
    setVault st st.owner v = .ok { st with vault := v } ∧
    r.1.status = NOT_ENTERED := by
  refine ⟨?_, ?_, ?_, ?_, ?_, ?_, ?_,
    executeWithAave_status_reset st2 s4 params2 env2 r hok⟩
  · by_cases h1 : s1 = st.owner
    · by_cases hp : st.paused
      · simp [executeWithAave, h1, hp, isErrorB]
      · simp [executeWithAave, h1, hp, hent, isErrorB]
    · simp [executeWithAave, h1, isErrorB]
  · simp [transferOwnership, hs2]
  · simp [setVault, hs2]
  · simp [togglePause, hs2]
  · simp [setMinProfit, hs2]
  · simp [emergencyWithdraw, hs2]
  · simp [setVault, hv]

/-- Witness for C8: a locked state rejecting calls, and a complete successful
run of `executeWithAave` from and back to `NOT_ENTERED`. -/
theorem reentrancy_lock_scope_witness :
    isErrorB (executeWithAave stEntered 5 paramsRun envRun) = true ∧
    transferOwnership stEntered 7 8 = .error .unauthorized ∧
    setVault stEntered 7 9 = .error .unauthorized ∧
    togglePause stEntered 7 = .error .unauthorized ∧
    setMinProfit stEntered 7 3 = .error .unauthorized ∧
    emergencyWithdraw stEntered 7 4 = .error .unauthorized ∧
    setVault stEntered stEntered.owner 9 = .ok { stEntered with vault := 9 } ∧
    (stRun, 90).1.status = NOT_ENTERED :=
  reentrancy_lock_scope stEntered stRun 5 7 5 8 9 3 4 paramsRun paramsRun envRun envRun
    (stRun, 90) rfl (by decide) (by decide) rfl (by decide)

/-- C8 (counterexample): with the lock held (`_status = ENTERED`), a call to
the owner-gated `setVault` with the owner as sender is *not* rejected — the
administrative functions carry no reentrancy guard, refuting "any re-entrant
call into an owner-gated function is rejected" as stated. -/
theorem admin_reentry_not_rejected :
    stEntered.status = ENTERED ∧
    isErrorB (setVault stEntered stEntered.owner 9) = false ∧
    setVault stEntered stEntered.owner 9 = .ok { stEntered with vault := 9 } := by
  refine ⟨rfl, by decide, by decide⟩

/-! ## C9: the stored minProfitBps is dead on the execution path -/

/-- C9: two runs of `executeWithAave` (callback included) from states that
differ only in `minProfitBps` produce the same outcome — same revert kind, or
same success with the same profit and the same final state up to that field.
The profit floor enforced is solely the `minProfit` carried in the submitted
`ArbitrageParams`. -/
theorem execution_independent_of_minProfitBps (st : ExecutorState) (a b sender : ℕ)
    (params : ArbitrageParams) (env : ChainEnv) :
    executeWithAave { st with minProfitBps := a } sender params env =
      (executeWithAave { st with minProfitBps := b } sender params env).map
        (fun q => ({ q.1 with minProfitBps := a }, q.2)) := by
  cases st with
  | mk sa ow va ap pa stt mb =>
    by_cases h1 : sender = ow
    · by_cases h2 : pa
      · simp [executeWithAave, h1, h2, Except.map]
      · by_cases h3 : stt = ENTERED
        · simp [executeWithAave, h1, h2, h3, Except.map]
        · by_cases h4 : params.borrowAmount = 0
          · simp [executeWithAave, h1, h2, h3, h4, Except.map]
          · by_cases h5 : params.swaps.length = 0
            · simp [executeWithAave, h1, h2, h3, h4, h5, Except.map]
            · cases env with
              | mk sf post before prem =>
                cases sf with
                | some i =>
                  simp [executeWithAave, executeOperation, executeSwaps,
                    h1, h2, h3, h4, h5, Except.map]
                | none =>
                  by_cases h6 : post < params.borrowAmount + prem + params.minProfit
                  · by_cases h7 : post < params.borrowAmount + prem
                    · simp [executeWithAave, executeOperation, executeSwaps,
                        h1, h2, h3, h4, h5, h6, h7, Except.map]
                    · simp [executeWithAave, executeOperation, executeSwaps,
                        h1, h2, h3, h4, h5, h6, h7, Except.map]
                  · by_cases h8 : post - (params.borrowAmount + prem) < before
                    · simp [executeWithAave, executeOperation, executeSwaps,
                        h1, h2, h3, h4, h5, h6, h8, Except.map]
                    · simp [executeWithAave, executeOperation, executeSwaps,
                        h1, h2, h3, h4, h5, h6, h8, Except.map]
    · simp [executeWithAave, h1, Except.map]
